import Mathlib

/-!
Shallow embedding of the IEC 104 codec (files `iec104/wrapper.py`,
`iec104/python3/unwrapper.py`).  Python byte strings are modelled as
`List Nat` (each entry one byte), Python ints as `Nat` (or `Int` where the
source can hold negative values, namely the information-object-address
counter).  Bit operations of the source are translated to exact `%` / `/` /
`*` arithmetic: for a nonnegative integer `x`, `x & (2^k - 1) = x % 2^k`,
`x >> k = x / 2^k` and `x << k = x * 2^k`.  A function that in Python can
either return a value, return an `"ERROR: ..."` string, or raise an
exception (e.g. `struct.error` on an out-of-range pack or a short buffer)
is modelled with the three-constructor result type `PyRes`.
-/

namespace IEC104

/-- Result of a Python call: a returned value, a returned error string, or a
raised exception (which propagates through callers). -/
inductive PyRes (α : Type) where
  | ok (val : α)
  | err (msg : String)
  | exn
deriving DecidableEq, Repr

/-- Type identification constants of both source files. -/
def M_BO_NA_1 : Nat := 7

def M_ME_NC_1 : Nat := 13

def C_SC_NA_1 : Nat := 45

def C_IC_NA_1 : Nat := 100

def C_RD_NA_1 : Nat := 102

/-! ## Encoder (`iec104/wrapper.py`) -/

/-- `IEC104Wrapper.i_frame`: range-check both sequence numbers, then
`struct.pack("<2H", ssn << 1, rsn << 1)` (little-endian 16-bit words). -/
def i_frame (ssn rsn : Nat) : PyRes (List Nat) :=
  if ssn > 32767 then
    .err "ERROR: Send sequence number has to be an integer between 0 and 32767."
  else if rsn > 32767 then
    .err "ERROR: Receive sequence number has to be an integer between 0 and 32767."
  else
    .ok [2 * ssn % 256, 2 * ssn / 256, 2 * rsn % 256, 2 * rsn / 256]

/-- `IEC104Wrapper.s_frame`: `struct.pack("<2BH", 0x1, 0x00, rsn << 1)`. -/
def s_frame (rsn : Nat) : PyRes (List Nat) :=
  if rsn > 32767 then
    .err "ERROR: Receive sequence number has to be an integer between 0 and 32767."
  else
    .ok [1, 0, 2 * rsn % 256, 2 * rsn / 256]

/-- `IEC104Wrapper.wrap_quality_descriptor`: validates the five bits and packs
them as `overflow + 16*blocked + 32*substituted + 64*not_topical +
128*invalid` (the conditional constants of the source equal these products
when the bit is 0 or 1).  The result is the packed byte value. -/
def wrap_quality_descriptor (overflow blocked substituted not_topical invalid : Nat) :
    PyRes Nat :=
  if overflow > 1 then .err "ERROR: Overflow bit has to be 0 or 1."
  else if blocked > 1 then .err "ERROR: Blocked bit has to be 0 or 1."
  else if substituted > 1 then .err "ERROR: Substituted bit has to be 0 or 1."
  else if not_topical > 1 then .err "ERROR: Not topical bit has to be 0 or 1."
  else if invalid > 1 then .err "ERROR: Invalid bit has to be 0 or 1."
  else .ok (overflow + 16 * blocked + 32 * substituted + 64 * not_topical + 128 * invalid)

/-- `IEC104Wrapper.wrap_qualifier_of_command`. -/
def wrap_qualifier_of_command (qualifier select_execute : Nat) : PyRes Nat :=
  if select_execute > 1 then .err "ERROR: S/E bit has to be 0 or 1."
  else if qualifier > 31 then
    .err "ERROR: Qualifier of command has to be an integer between 0 and 31."
  else .ok (qualifier + 32 * select_execute)

/-- `IEC104Wrapper.wrap_single_command`: the nested call receives
`(qualifier_of_command >> 1) & 0xFF` and `qualifier_of_command & 0x01`; the
returned qualifier is then shifted: `(qos << 2) & 0xFF`. -/
def wrap_single_command (single_command_state qualifier_of_command : Nat) :
    PyRes (List Nat) :=
  if single_command_state > 1 then
    .err "ERROR: Single command state bit has to be 0 or 1."
  else if qualifier_of_command > 63 then
    .err "ERROR: Qualifier of command has to be an integer between 0 and 63."
  else
    match wrap_qualifier_of_command (qualifier_of_command / 2 % 256) (qualifier_of_command % 2) with
    | .ok qos => .ok [single_command_state + qos * 4 % 256]
    | .err e => .err e
    | .exn => .exn

/-- `IEC104Wrapper.wrap_qualifier_of_interrogation`. -/
def wrap_qualifier_of_interrogation (qualifier : Nat) : PyRes (List Nat) :=
  if qualifier > 255 then
    .err "ERROR: Qualifier of interrogation has to be an integer between 0 and 255."
  else .ok [qualifier]

/-- One entry of the heterogeneous Python `message` list handed to the
information-object encoders.  `bo` is a `(bitstring, (blocked, substituted,
not_topical, invalid))` tuple with the bitstring already as raw bytes (the
source calls `.encode()` on `str` inputs); `me` is a `(float, bits)` tuple
with the float represented by its packed little-endian IEEE-754 byte pattern
`f0..f3`; `sc` is a `(single_command_state, qualifier_of_command)` tuple;
`ic` is a plain integer; `rd` is the placeholder object (e.g. the string
"Read") that `C_RD_NA_1` receives and ignores. -/
inductive WMsg where
  | bo (bsi : List Nat) (blocked substituted not_topical invalid : Nat)
  | me (f0 f1 f2 f3 : Nat) (blocked substituted not_topical invalid : Nat)
  | sc (state qoc : Nat)
  | ic (qoi : Nat)
  | rd
deriving DecidableEq, Repr

/-- `IEC104Wrapper.wrap_information_object_m_bo_na_1`.  A non-tuple message
(`ic`, `rd`) fails the first `type(message) is tuple` check; a tuple whose
first member is neither `str` nor `bytes` (`me`, `sc`) fails the second
check.  `struct.pack("<4s", msg[0:4])` truncates to 4 bytes and pads short
input with null bytes on the right. -/
def wrap_information_object_m_bo_na_1 (message : WMsg) : PyRes (List Nat) :=
  match message with
  | .bo bsi bl sb nt iv =>
    match wrap_quality_descriptor (if bsi.length > 4 then 1 else 0) bl sb nt iv with
    | .ok qd => .ok (bsi.take 4 ++ List.replicate (4 - bsi.length) 0 ++ [qd])
    | .err e => .err e
    | .exn => .exn
  | .me _ _ _ _ _ _ _ _ => .err "ERROR: M_BO_NA_1 expects a string or bytestring."
  | .sc _ _ => .err "ERROR: M_BO_NA_1 expects a string or bytestring."
  | _ => .err "ERROR: M_BO_NA_1 expects a string and a tuple containing some bits of the IEC 104 quality descriptor in a tupel."

/-- `IEC104Wrapper.wrap_information_object_m_me_nc_1`: `struct.pack("<f", v)`
is the 4-byte pattern `f0..f3` carried by the `me` message. -/
def wrap_information_object_m_me_nc_1 (message : WMsg) : PyRes (List Nat) :=
  match message with
  | .me f0 f1 f2 f3 bl sb nt iv =>
    match wrap_quality_descriptor 0 bl sb nt iv with
    | .ok qd => .ok [f0, f1, f2, f3, qd]
    | .err e => .err e
    | .exn => .exn
  | .bo _ _ _ _ _ => .err "ERROR: M_ME_NC_1 expects a float value."
  | .sc _ _ => .err "ERROR: M_ME_NC_1 expects a float value."
  | _ => .err "ERROR: M_ME_NC_1 expects a float value and a tuple containing some bits of the IEC 104 quality descriptor in a tupel."

/-- `IEC104Wrapper.wrap_information_object_c_sc_na_1`.  A `bo`/`me` tuple
passes the tuple check but its first member is not in `[0,1]`, so
`wrap_single_command` rejects the state bit. -/
def wrap_information_object_c_sc_na_1 (message : WMsg) : PyRes (List Nat) :=
  match message with
  | .sc st qoc => wrap_single_command st qoc
  | .bo _ _ _ _ _ => .err "ERROR: Single command state bit has to be 0 or 1."
  | .me _ _ _ _ _ _ _ _ => .err "ERROR: Single command state bit has to be 0 or 1."
  | _ => .err "ERROR: C_SC_NA_1 expects a single command state and a qualifier of command in a tupel."

/-- `IEC104Wrapper.wrap_information_object_c_ic_na_1`: delegates to
`wrap_qualifier_of_interrogation`, whose integer check rejects every
non-`ic` message. -/
def wrap_information_object_c_ic_na_1 (message : WMsg) : PyRes (List Nat) :=
  match message with
  | .ic q => wrap_qualifier_of_interrogation q
  | _ => .err "ERROR: Qualifier of interrogation has to be an integer between 0 and 255."

/-- Little-endian 3-byte encoding of a nonnegative counter value, as packed
by `struct.pack("<3B", a & 0xFF, (a >> 8) & 0xFF, (a >> 16) & 0xFF)`. -/
def ioa3 (a : Int) : List Nat :=
  [(a % 256).toNat, (a / 256 % 256).toNat, (a / 65536 % 256).toNat]

/-- `IEC104Wrapper.wrap_information_object_address`: the stored counter
`self.information_object_address` is the explicit `Int` state; on success the
setter stores `counter + 1`.  (A non-integer counter, reachable only by
assigning the field directly, likewise returns this error string and leaves
the field untouched.) -/
def wrap_information_object_address (a : Int) : PyRes (List Nat) × Int :=
  if a < 0 ∨ a > 16777215 then
    (.err "ERROR: Information object address has to be an integer between 0 and 16777215.", a)
  else
    (.ok (ioa3 a), a + 1)

/-- The `SQ == 0` while-loop of `IEC104Wrapper.wrap_information_object`: for
each element emit an address followed by the element payload, threading the
counter.  The loop bound `length` equals the message-list length when the
loop is reached, so recursion over the list is exact. -/
def wrap_io_loop_sq0 (wrapElem : WMsg → PyRes (List Nat)) :
    List WMsg → Int → PyRes (List Nat) × Int
  | [], a => (.ok [], a)
  | m :: ms, a =>
    match wrap_information_object_address a with
    | (.ok addr, a') =>
      match wrapElem m with
      | .ok payload =>
        match wrap_io_loop_sq0 wrapElem ms a' with
        | (.ok rest, a'') => (.ok (addr ++ payload ++ rest), a'')
        | (.err e, a'') => (.err e, a'')
        | (.exn, a'') => (.exn, a'')
      | .err e => (.err e, a')
      | .exn => (.exn, a')
    | (.err e, a') => (.err e, a')
    | (.exn, a') => (.exn, a')

/-- The `SQ == 1` while-loop of `IEC104Wrapper.wrap_information_object`:
payloads only (the single leading address is emitted by the caller). -/
def wrap_io_loop_sq1 (wrapElem : WMsg → PyRes (List Nat)) :
    List WMsg → PyRes (List Nat)
  | [] => .ok []
  | m :: ms =>
    match wrapElem m with
    | .ok payload =>
      match wrap_io_loop_sq1 wrapElem ms with
      | .ok rest => .ok (payload ++ rest)
      | .err e => .err e
      | .exn => .exn
    | .err e => .err e
    | .exn => .exn

/-- `IEC104Wrapper.wrap_information_object`: `length = vsq & 0x7F`; length 0
returns the empty bytestring at once; the `SQ` bit is `(vsq & 0x80) == 0x80`;
in the sequence branch the single address is emitted before the type
dispatch, so an unrecognized type still advances the counter there. -/
def wrap_information_object (type_id vsq : Nat) (message : List WMsg) (a : Int) :
    PyRes (List Nat) × Int :=
  if message.length > 128 then
    (.err "ERROR: The message has to be a list containing less than 128 objects/elements.", a)
  else if vsq % 128 = 0 then (.ok [], a)
  else if vsq % 128 > message.length then
    (.err "ERROR: Variable structure qualifier expects more messages than given.", a)
  else if vsq % 128 < message.length then
    (.err "ERROR: Variable structure qualifier expects fewer messages than given.", a)
  else if vsq / 128 % 2 = 1 then
    match wrap_information_object_address a with
    | (.ok addr, a') =>
      if type_id = M_BO_NA_1 then
        match wrap_io_loop_sq1 wrap_information_object_m_bo_na_1 message with
        | .ok payloads => (.ok (addr ++ payloads), a')
        | .err e => (.err e, a')
        | .exn => (.exn, a')
      else if type_id = M_ME_NC_1 then
        match wrap_io_loop_sq1 wrap_information_object_m_me_nc_1 message with
        | .ok payloads => (.ok (addr ++ payloads), a')
        | .err e => (.err e, a')
        | .exn => (.exn, a')
      else
        (.err "ERROR: The ASDU type was not recognized or is not fit to be a sequence of elements.", a')
    | (.err e, a') => (.err e, a')
    | (.exn, a') => (.exn, a')
  else
    if type_id = M_BO_NA_1 then
      wrap_io_loop_sq0 wrap_information_object_m_bo_na_1 message a
    else if type_id = M_ME_NC_1 then
      wrap_io_loop_sq0 wrap_information_object_m_me_nc_1 message a
    else if type_id = C_SC_NA_1 then
      if vsq % 128 ≠ 1 then (.err "ERROR: C_SC_NA_1 length has to be 1.", a)
      else
        match wrap_information_object_address a with
        | (.ok addr, a') =>
          match wrap_information_object_c_sc_na_1 (message.headD .rd) with
          | .ok payload => (.ok (addr ++ payload), a')
          | .err e => (.err e, a')
          | .exn => (.exn, a')
        | (.err e, a') => (.err e, a')
        | (.exn, a') => (.exn, a')
    else if type_id = C_IC_NA_1 then
      if vsq % 128 ≠ 1 then (.err "ERROR: C_IC_NA_1 length has to be 1.", a)
      else
        match wrap_information_object_address a with
        | (.ok addr, a') =>
          match wrap_information_object_c_ic_na_1 (message.headD .rd) with
          | .ok payload => (.ok (addr ++ payload), a')
          | .err e => (.err e, a')
          | .exn => (.exn, a')
        | (.err e, a') => (.err e, a')
        | (.exn, a') => (.exn, a')
    else if type_id = C_RD_NA_1 then
      if vsq % 128 ≠ 1 then (.err "ERROR: C_RD_NA_1 length has to be 1.", a)
      else
        match wrap_information_object_address a with
        | (.ok addr, a') => (.ok addr, a')
        | (.err e, a') => (.err e, a')
        | (.exn, a') => (.exn, a')
    else
      (.err "ERROR: The ASDU type was not recognized or is not fit to be a sequence of elements.", a)

/-- `IEC104Wrapper.wrap_asdu_type`. -/
def wrap_asdu_type (asdu_type : String) : PyRes Nat :=
  if asdu_type = "M_BO_NA_1" then .ok M_BO_NA_1
  else if asdu_type = "M_ME_NC_1" then .ok M_ME_NC_1
  else if asdu_type = "C_SC_NA_1" then .ok C_SC_NA_1
  else if asdu_type = "C_IC_NA_1" then .ok C_IC_NA_1
  else if asdu_type = "C_RD_NA_1" then .ok C_RD_NA_1
  else .err "ERROR: The ASDU type was not recognized."

/-- `IEC104Wrapper.wrap_variable_structure_qualifier`: for monitored types the
qualifier is the element count plus 128 when the sequence bit is set; for the
three command types it is the constant 1 regardless of the sequence bit. -/
def wrap_variable_structure_qualifier (type_id sequence : Nat) (message : List WMsg) :
    PyRes Nat :=
  if sequence > 1 then .err "ERROR: Sequence bit has to be 0 or 1."
  else if message.length > 128 then
    .err "ERROR: The message has to be a list containing less than 128 objects/elements."
  else if type_id = M_BO_NA_1 ∨ type_id = M_ME_NC_1 then
    .ok (message.length + if sequence = 1 then 128 else 0)
  else if type_id = C_SC_NA_1 ∨ type_id = C_IC_NA_1 ∨ type_id = C_RD_NA_1 then
    .ok 1
  else .err "ERROR: The type identification was not recognized."

/-- Char-list matching at the head: does `pat` occur at the start of the
text? -/
def charsStartWith : List Char → List Char → Bool
  | [], _ => true
  | _ :: _, [] => false
  | p :: ps, c :: cs => p == c && charsStartWith ps cs

/-- Does `pat` occur anywhere in the text? -/
def charsContain (pat : List Char) : List Char → Bool
  | [] => pat.isEmpty
  | c :: cs => charsStartWith pat (c :: cs) || charsContain pat cs

/-- Substring containment, modelling the Python `pat in s` test. -/
def strContains (s pat : String) : Bool :=
  charsContain pat.data s.data

/-- `IEC104Wrapper.wrap_cause_of_transmission` on a
`(cause, pn, test)` tuple plus originator address. -/
def wrap_cause_of_transmission (cause : String) (pn test originator_address : Nat) :
    PyRes (List Nat) :=
  if pn > 1 then .err "ERROR: P/N bit has to be 0 or 1."
  else if test > 1 then .err "ERROR: Testbit has to be 0 or 1."
  else if originator_address > 255 then
    .err "ERROR: Originator address has to be an integer between 0 and 255."
  else if strContains cause "periodic" || strContains cause "cyclic" then
    .ok [1 + 64 * pn + 128 * test, originator_address]
  else if strContains cause "spontaneous" then
    .ok [3 + 64 * pn + 128 * test, originator_address]
  else if strContains cause "request" || strContains cause "requested" then
    .ok [5 + 64 * pn + 128 * test, originator_address]
  else if strContains cause "activation confirmation" then
    .ok [7 + 64 * pn + 128 * test, originator_address]
  else if strContains cause "activation" then
    .ok [6 + 64 * pn + 128 * test, originator_address]
  else if strContains cause "return information" && strContains cause "remote command" then
    .ok [11 + 64 * pn + 128 * test, originator_address]
  else .err "ERROR: No cause of transmission was found."

/-- `IEC104Wrapper.wrap_common_address`. -/
def wrap_common_address (common_address : Nat) : PyRes (List Nat) :=
  if common_address > 65535 then
    .err "ERROR: Common address has to be an integer between 0 and 65535."
  else .ok [common_address % 256, common_address / 256 % 256]

/-- `IEC104Wrapper.wrap_asdu`, threading the counter state.  The final
`struct.pack("<2B", type_id, vsq)` raises when either value exceeds one byte
(`vsq` can reach 256 for a 128-element sequence), modelled by `exn`. -/
def wrap_asdu (asdu_type : String) (sequence : Nat) (cause : String) (pn test : Nat)
    (common_address : Nat) (message : List WMsg) (originator_address : Nat) (a : Int) :
    PyRes (List Nat) × Int :=
  if sequence > 1 then (.err "ERROR: Sequence bit has to be 0 or 1.", a)
  else
    match wrap_asdu_type asdu_type with
    | .ok type_id =>
      match wrap_variable_structure_qualifier type_id sequence message with
      | .ok vsq =>
        match wrap_cause_of_transmission cause pn test originator_address with
        | .ok cot =>
          match wrap_common_address common_address with
          | .ok ca =>
            match wrap_information_object type_id vsq message a with
            | (.ok objs, a') =>
              if type_id > 255 ∨ vsq > 255 then (.exn, a')
              else (.ok ([type_id, vsq] ++ cot ++ ca ++ objs), a')
            | (.err e, a') => (.err e, a')
            | (.exn, a') => (.exn, a')
          | .err e => (.err e, a)
          | .exn => (.exn, a)
        | .err e => (.err e, a)
        | .exn => (.exn, a)
      | .err e => (.err e, a)
      | .exn => (.exn, a)
    | .err e => (.err e, a)
    | .exn => (.exn, a)

/-! ## Decoder (`iec104/python3/unwrapper.py`, the draft §9(a) of the spec
designates as authoritative) -/

/-- Byte read from a buffer; `struct.unpack_from` accesses are guarded by an
explicit bounds check in each caller (a short buffer raises `struct.error`,
modelled as `exn`). -/
def byteD (l : List Nat) (i : Nat) : Nat := l.getD i 0

/-- Decoded APCI control field.  The source returns the tuples
`("i-frame", ssn, rsn)`, `("s-frame", 1, rsn)` and
`("u-frame", function_name, 0)`; the constant slots are dropped here. -/
inductive Frame where
  | iframe (ssn rsn : Nat)
  | sframe (rsn : Nat)
  | uframe (function : String)
deriving DecidableEq, Repr

/-- `IEC104Unwrapper.unwrap_frame` on the 4-tuple produced by
`struct.unpack_from("<4B", apdu, 0)`.  `(frame[1] << 7) + (frame[0] >> 1)`
is `b1 * 128 + b0 / 2`.  Note the S-frame arm requires `frame[0] == 1`
exactly, not merely low bits `01`. -/
def unwrap_frame (b0 b1 b2 b3 : Nat) : PyRes Frame :=
  if b0 % 2 = 0 then
    .ok (.iframe (b1 * 128 + b0 / 2) (b3 * 128 + b2 / 2))
  else if b0 = 1 then
    .ok (.sframe (b3 * 128 + b2 / 2))
  else if b0 % 4 = 3 then
    if b0 = 131 then .ok (.uframe "TESTFR_CON")
    else if b0 = 67 then .ok (.uframe "TESTFR_ACT")
    else if b0 = 35 then .ok (.uframe "STOPDT_CON")
    else if b0 = 19 then .ok (.uframe "STOPDT_ACT")
    else if b0 = 11 then .ok (.uframe "STARTDT_CON")
    else if b0 = 7 then .ok (.uframe "STARTDT_ACT")
    else if b0 = 3 then .ok (.uframe "NO_FUNC")
    else .err "ERROR: Function type could not be determined."
  else .err "ERROR: Frame type could not be determined."

/-- `IEC104Unwrapper.unwrap_type_identification`. -/
def unwrap_type_identification (type_id : Nat) : PyRes String :=
  if type_id = M_BO_NA_1 then .ok "M_BO_NA_1"
  else if type_id = M_ME_NC_1 then .ok "M_ME_NC_1"
  else if type_id = C_SC_NA_1 then .ok "C_SC_NA_1"
  else if type_id = C_IC_NA_1 then .ok "C_IC_NA_1"
  else if type_id = C_RD_NA_1 then .ok "C_RD_NA_1"
  else .err "ERROR: The ASDU type was not recognized."

/-- `IEC104Unwrapper.unwrap_variable_structure_qualifier`:
`(((vsq >> 7) & 0x01), (vsq & 0x7F))`.  Its only failure is a type check
that is unreachable from `unwrap_apdu` (the byte is always an int), so the
function is total here. -/
def unwrap_variable_structure_qualifier (vsq : Nat) : Nat × Nat :=
  (vsq / 128 % 2, vsq % 128)

/-- `IEC104Unwrapper.unwrap_cause_of_transmission`. -/
def unwrap_cause_of_transmission (cot : Nat) : PyRes (String × Nat × Nat) :=
  if cot % 64 = 1 then .ok ("periodic", cot / 64 % 2, cot / 128 % 2)
  else if cot % 64 = 3 then .ok ("spontaneous", cot / 64 % 2, cot / 128 % 2)
  else if cot % 64 = 5 then .ok ("request or requested", cot / 64 % 2, cot / 128 % 2)
  else if cot % 64 = 6 then .ok ("activation", cot / 64 % 2, cot / 128 % 2)
  else if cot % 64 = 7 then .ok ("activation confirmation", cot / 64 % 2, cot / 128 % 2)
  else if cot % 64 = 11 then
    .ok ("return information by remote command", cot / 64 % 2, cot / 128 % 2)
  else .err "ERROR: No cause of transmission was found."

/-- `IEC104Unwrapper.unwrap_quality_descriptor` (total: its only failure is
an integer type check). -/
def unwrap_quality_descriptor (qds : Nat) : Nat × Nat × Nat × Nat × Nat :=
  (qds % 2, qds / 16 % 2, qds / 32 % 2, qds / 64 % 2, qds / 128 % 2)

/-- `IEC104Unwrapper.unwrap_qualifier_of_command`. -/
def unwrap_qualifier_of_command (qoc : Nat) : Nat × Nat :=
  (qoc % 32, qoc / 32 % 2)

/-- `IEC104Unwrapper.unwrap_single_command`: `(sco & 0xFC) >> 2` equals
`sco / 4 % 64`. -/
def unwrap_single_command (sco : Nat) : Nat × Nat × Nat :=
  (sco % 2, unwrap_qualifier_of_command (sco / 4 % 64))

/-- `IEC104Unwrapper.unwrap_information_object_address` on the 3-tuple from
`struct.unpack_from("<3B", ...)`: `ioa[0] + (ioa[1] << 8) + (ioa[2] << 16)`. -/
def unwrap_information_object_address (x y z : Nat) : Nat :=
  x + y * 256 + z * 65536

/-- One decoded entry of the Python result list of
`unwrap_information_objects`: a bare address (sequence head, or the
`C_RD_NA_1` result), a sequence element (bitstring or float pattern plus
quality bits), an addressed monitored object, a single command, or an
interrogation command.  Bitstrings and floats are kept as their raw 4 bytes
(the `.decode()` of the bitstring and the `struct.unpack("<f", ...)` of the
source are injective renderings of those bytes). -/
inductive IOElem where
  | addr (ioa : Nat)
  | seqBo (bsi : List Nat) (qds : Nat × Nat × Nat × Nat × Nat)
  | seqMe (raw : List Nat) (qds : Nat × Nat × Nat × Nat × Nat)
  | bo (ioa : Nat) (bsi : List Nat) (qds : Nat × Nat × Nat × Nat × Nat)
  | me (ioa : Nat) (raw : List Nat) (qds : Nat × Nat × Nat × Nat × Nat)
  | sc (ioa : Nat) (sco : Nat × Nat × Nat)
  | ic (ioa : Nat) (qoi : Nat)
deriving DecidableEq, Repr

/-- The `sequence == 1` while-loop of
`IEC104Unwrapper.unwrap_information_objects`: each iteration reads 4 payload
bytes and a quality byte at the running offset, stepping by 5. -/
def unwrap_seq_loop (isBo : Bool) (asdu : List Nat) : Nat → Nat → PyRes (List IOElem)
  | _, 0 => .ok []
  | off, n + 1 =>
    if off + 4 ≤ asdu.length then
      if off + 5 ≤ asdu.length then
        match unwrap_seq_loop isBo asdu (off + 5) n with
        | .ok rest =>
          .ok ((if isBo then
                  IOElem.seqBo [byteD asdu off, byteD asdu (off + 1), byteD asdu (off + 2),
                    byteD asdu (off + 3)] (unwrap_quality_descriptor (byteD asdu (off + 4)))
                else
                  IOElem.seqMe [byteD asdu off, byteD asdu (off + 1), byteD asdu (off + 2),
                    byteD asdu (off + 3)] (unwrap_quality_descriptor (byteD asdu (off + 4))))
              :: rest)
        | .err e => .err e
        | .exn => .exn
      else .exn
    else .exn

/-- The `sequence == 0` while-loop for the monitored types: each iteration
reads a 3-byte address, 4 payload bytes and a quality byte, stepping by 8. -/
def unwrap_obj_loop (isBo : Bool) (asdu : List Nat) : Nat → Nat → PyRes (List IOElem)
  | _, 0 => .ok []
  | off, n + 1 =>
    if off + 3 ≤ asdu.length then
      if off + 7 ≤ asdu.length then
        if off + 8 ≤ asdu.length then
          match unwrap_obj_loop isBo asdu (off + 8) n with
          | .ok rest =>
            .ok ((if isBo then
                    IOElem.bo
                      (unwrap_information_object_address (byteD asdu off)
                        (byteD asdu (off + 1)) (byteD asdu (off + 2)))
                      [byteD asdu (off + 3), byteD asdu (off + 4), byteD asdu (off + 5),
                        byteD asdu (off + 6)]
                      (unwrap_quality_descriptor (byteD asdu (off + 7)))
                  else
                    IOElem.me
                      (unwrap_information_object_address (byteD asdu off)
                        (byteD asdu (off + 1)) (byteD asdu (off + 2)))
                      [byteD asdu (off + 3), byteD asdu (off + 4), byteD asdu (off + 5),
                        byteD asdu (off + 6)]
                      (unwrap_quality_descriptor (byteD asdu (off + 7))))
                :: rest)
          | .err e => .err e
          | .exn => .exn
        else .exn
      else .exn
    else .exn

/-- `IEC104Unwrapper.unwrap_information_objects` of the python3 draft.
`M_BO_NA_1_LENGTH = M_ME_NC_1_LENGTH = 5` and
`INFORMATION_OBJECT_ADDRESS_LENGTH = 3`.  In the `C_IC_NA_1` and
`C_RD_NA_1` branches the source reads the address with
`struct.unpack_from("<3B", asdu)` — without the offset argument, hence from
position 0. -/
def unwrap_information_objects (type_id sequence asdu_length : Nat) (asdu : List Nat)
    (length offset : Nat) : PyRes (List IOElem) :=
  if sequence > 1 then .err "ERROR: Sequence bit has to be 0 or 1."
  else if asdu_length < 1 then .err "ERROR: The ASDU length has to be an integer bigger than 0."
  else if sequence = 1 then
    if type_id = M_BO_NA_1 then
      if asdu_length * 5 + 3 ≠ length then
        .err "ERROR: The expected ASDU length does not equal the real length."
      else if offset + 3 ≤ asdu.length then
        match unwrap_seq_loop true asdu (offset + 3) asdu_length with
        | .ok rest =>
          .ok (IOElem.addr (unwrap_information_object_address (byteD asdu offset)
                (byteD asdu (offset + 1)) (byteD asdu (offset + 2))) :: rest)
        | .err e => .err e
        | .exn => .exn
      else .exn
    else if type_id = M_ME_NC_1 then
      if asdu_length * 5 + 3 ≠ length then
        .err "ERROR: The expected ASDU length does not equal the real length."
      else if offset + 3 ≤ asdu.length then
        match unwrap_seq_loop false asdu (offset + 3) asdu_length with
        | .ok rest =>
          .ok (IOElem.addr (unwrap_information_object_address (byteD asdu offset)
                (byteD asdu (offset + 1)) (byteD asdu (offset + 2))) :: rest)
        | .err e => .err e
        | .exn => .exn
      else .exn
    else .err "ERROR: The ASDU type was not recognized or does not work as a sequence."
  else
    if type_id = M_BO_NA_1 then
      if asdu_length * (5 + 3) ≠ length then
        .err "ERROR: The expected ASDU length does not equal the real length."
      else unwrap_obj_loop true asdu offset asdu_length
    else if type_id = M_ME_NC_1 then
      if asdu_length * (5 + 3) ≠ length then
        .err "ERROR: The expected ASDU length does not equal the real length."
      else unwrap_obj_loop false asdu offset asdu_length
    else if type_id = C_SC_NA_1 then
      if asdu_length ≠ 1 then .err "ERROR: C_SC_NA_1 expects only one information object."
      else if asdu_length + 3 ≠ length then
        .err "ERROR: The expected ASDU length does not equal the real length."
      else if offset + 3 ≤ asdu.length then
        if offset + 4 ≤ asdu.length then
          .ok [IOElem.sc (unwrap_information_object_address (byteD asdu offset)
                (byteD asdu (offset + 1)) (byteD asdu (offset + 2)))
              (unwrap_single_command (byteD asdu (offset + 3)))]
        else .exn
      else .exn
    else if type_id = C_IC_NA_1 then
      if asdu_length ≠ 1 then .err "ERROR: C_IC_NA_1 expects only one information object."
      else if asdu_length + 3 ≠ length then
        .err "ERROR: The expected ASDU length does not equal the real length."
      else if 3 ≤ asdu.length then
        if offset + 4 ≤ asdu.length then
          match wrap_qualifier_of_interrogation (byteD asdu (offset + 3)) with
          | .ok _ =>
            .ok [IOElem.ic (unwrap_information_object_address (byteD asdu 0)
                  (byteD asdu 1) (byteD asdu 2)) (byteD asdu (offset + 3))]
          | .err e => .err e
          | .exn => .exn
        else .exn
      else .exn
    else if type_id = C_RD_NA_1 then
      if asdu_length ≠ 1 then .err "ERROR: C_RD_NA_1 expects only one information object."
      else if (3 : Nat) ≠ length then
        .err "ERROR: The expected ASDU length does not equal the real length."
      else if 3 ≤ asdu.length then
        .ok [IOElem.addr (unwrap_information_object_address (byteD asdu 0)
              (byteD asdu 1) (byteD asdu 2))]
      else .exn
    else .err "ERROR: The ASDU type was not recognized or does only work as a sequence."

/-- The information-object slot of the `unwrap_apdu` result: the sentinel
string `"No information objects/elements."` when the qualifier announces no
elements, otherwise the decoded list. -/
inductive IOSlot where
  | sentinel
  | objs (l : List IOElem)
deriving DecidableEq, Repr

/-- The success tuple of `unwrap_apdu`:
`(frame, asdu_type, (sq, num), cot, oa, ca, objects)`. -/
structure ApduInfo where
  frame : Frame
  asdu_type : String
  sq : Nat
  num : Nat
  cot : String × Nat × Nat
  oa : Nat
  ca : Nat
  iobjs : IOSlot
deriving DecidableEq, Repr

/-- `IEC104Unwrapper.unwrap_apdu` of the python3 draft (`APDU_MIN_LEN = 10`,
`offset = 0`).  `struct.unpack_from("<2B", apdu, 8)[0]` keeps only the byte
at position 8 for the common address.  The `vsq[1] == 0` arm compares
`len(apdu) - APDU_MIN_LEN != 0`, i.e. `apdu.length ≠ 10`. -/
def unwrap_apdu (apdu : List Nat) (length : Nat) : PyRes ApduInfo :=
  if length < 10 then
    .err "ERROR: The length has to be an integer bigger than 9(excluding header)."
  else if 4 ≤ apdu.length then
    match unwrap_frame (byteD apdu 0) (byteD apdu 1) (byteD apdu 2) (byteD apdu 3) with
    | .ok frame =>
      if 5 ≤ apdu.length then
        match unwrap_type_identification (byteD apdu 4) with
        | .ok asdu_type =>
          if 6 ≤ apdu.length then
            if 7 ≤ apdu.length then
              match unwrap_cause_of_transmission (byteD apdu 6) with
              | .ok cot =>
                if 8 ≤ apdu.length then
                  if 10 ≤ apdu.length then
                    if (unwrap_variable_structure_qualifier (byteD apdu 5)).2 = 0 then
                      if apdu.length ≠ 10 then
                        .err "ERROR: No information object was expected but the APDU still contains information."
                      else
                        .ok ⟨frame, asdu_type,
                          (unwrap_variable_structure_qualifier (byteD apdu 5)).1,
                          (unwrap_variable_structure_qualifier (byteD apdu 5)).2,
                          cot, byteD apdu 7, byteD apdu 8, .sentinel⟩
                    else
                      match unwrap_information_objects (byteD apdu 4)
                        (unwrap_variable_structure_qualifier (byteD apdu 5)).1
                        (unwrap_variable_structure_qualifier (byteD apdu 5)).2
                        apdu (length - 10) 10 with
                      | .ok objs =>
                        .ok ⟨frame, asdu_type,
                          (unwrap_variable_structure_qualifier (byteD apdu 5)).1,
                          (unwrap_variable_structure_qualifier (byteD apdu 5)).2,
                          cot, byteD apdu 7, byteD apdu 8, .objs objs⟩
                      | .err e => .err e
                      | .exn => .exn
                  else .exn
                else .exn
              | .err e => .err e
              | .exn => .exn
            else .exn
          else .exn
        | .err e => .err e
        | .exn => .exn
      else .exn
    | .err e => .err e
    | .exn => .exn
  else .exn

/-! ## Claims -/

/-- C1: for every `ssn` and `rsn` in `[0, 32767]`, `i_frame` yields exactly 4
bytes, and `unwrap_frame` on those bytes recovers an I-frame with the same
`ssn` and `rsn`. -/
theorem i_frame_unwrap_roundtrip (ssn rsn : Nat) (hs : ssn ≤ 32767) (hr : rsn ≤ 32767) :
    ∃ b0 b1 b2 b3, i_frame ssn rsn = PyRes.ok [b0, b1, b2, b3] ∧
      unwrap_frame b0 b1 b2 b3 = PyRes.ok (Frame.iframe ssn rsn) := by
  refine ⟨2 * ssn % 256, 2 * ssn / 256, 2 * rsn % 256, 2 * rsn / 256, ?_, ?_⟩
  · unfold i_frame
    rw [if_neg (by omega), if_neg (by omega)]
  · unfold unwrap_frame
    rw [if_pos (by omega)]
    have h1 : 2 * ssn / 256 * 128 + 2 * ssn % 256 / 2 = ssn := by omega
    have h2 : 2 * rsn / 256 * 128 + 2 * rsn % 256 / 2 = rsn := by omega
    rw [h1, h2]

/-- C1 witness at `ssn = rsn = 1` (the frame `02 00 02 00` of the tests). -/
theorem i_frame_unwrap_roundtrip_witness :
    ∃ b0 b1 b2 b3, i_frame 1 1 = PyRes.ok [b0, b1, b2, b3] ∧
      unwrap_frame b0 b1 b2 b3 = PyRes.ok (Frame.iframe 1 1) :=
  i_frame_unwrap_roundtrip 1 1 (by decide) (by decide)

set_option maxRecDepth 4096 in
/-- C2: the claim (and the docstring plus error text of the encoder itself,
which demand "less than 128 objects/elements") says a 128-element message list
must be rejected, but the guard is `len(message) > 128`, so 128 elements
pass `wrap_variable_structure_qualifier` (yielding `vsq = 128`, whose low 7
bits are 0) and `wrap_information_object` then returns the empty bytestring
instead of an error; 127 succeeds and 129 is rejected as documented. -/
theorem vsq_accepts_128_elements :
    wrap_variable_structure_qualifier M_BO_NA_1 0 (List.replicate 127 (WMsg.bo [84] 0 0 0 0)) =
      PyRes.ok 127 ∧
    wrap_variable_structure_qualifier M_BO_NA_1 0 (List.replicate 128 (WMsg.bo [84] 0 0 0 0)) =
      PyRes.ok 128 ∧
    wrap_information_object M_BO_NA_1 128 (List.replicate 128 (WMsg.bo [84] 0 0 0 0)) 0 =
      (PyRes.ok [], 0) ∧
    wrap_variable_structure_qualifier M_BO_NA_1 0 (List.replicate 129 (WMsg.bo [84] 0 0 0 0)) =
      PyRes.err "ERROR: The message has to be a list containing less than 128 objects/elements." := by
  refine ⟨?_, ?_, ?_, ?_⟩ <;> decide

/-- C3 counterexample: `wrap_asdu` with command type `C_SC_NA_1` and
sequence bit 1 is not rejected — it succeeds, emitting the ASDU
`2D 01 01 00 01 00 00 00 00 FC` (VSQ byte 1: `sq = 0`, one element on the
wire) and advancing the counter from 0 to 1. -/
theorem wrap_asdu_command_seq1_not_rejected :
    wrap_asdu "C_SC_NA_1" 1 "periodic" 0 0 1 [WMsg.sc 0 63] 0 0 =
      (PyRes.ok [45, 1, 1, 0, 1, 0, 0, 0, 0, 252], 1) := by
  decide

/-- C3 amended: for the command types `C_SC_NA_1`, `C_IC_NA_1` and
`C_RD_NA_1` the encoder does not reject `sq = 1`; instead
`wrap_variable_structure_qualifier` forces the qualifier to 1 for either
value of the sequence bit, so the wire always carries `num_elements = 1` and
`sq = 0` for these types. -/
theorem command_types_force_vsq_one (type_id sequence : Nat) (message : List WMsg)
    (htid : type_id = C_SC_NA_1 ∨ type_id = C_IC_NA_1 ∨ type_id = C_RD_NA_1)
    (hseq : sequence ≤ 1) (hlen : message.length ≤ 128) :
    wrap_variable_structure_qualifier type_id sequence message = PyRes.ok 1 := by
  unfold wrap_variable_structure_qualifier
  rw [if_neg (by omega), if_neg (by omega),
    if_neg (by rcases htid with h | h | h <;> subst h <;> decide), if_pos htid]

/-- C3 amended witness: `C_SC_NA_1`, `sq = 1`, a one-element message. -/
theorem command_types_force_vsq_one_witness :
    wrap_variable_structure_qualifier C_SC_NA_1 1 [WMsg.sc 0 63] = PyRes.ok 1 :=
  command_types_force_vsq_one C_SC_NA_1 1 [WMsg.sc 0 63] (Or.inl rfl) (by decide) (by decide)

/-- C4: for every bitstring (raw byte list) and valid quality bits,
`wrap_information_object_m_bo_na_1` emits exactly 5 bytes — the first 4
bytes of the input, null-padded on the right when shorter — followed by a
QDS byte whose overflow bit (bit 0) is set exactly when the input exceeded
4 bytes before truncation. -/
theorem m_bo_na_1_five_bytes (bsi : List Nat) (bl sb nt iv : Nat)
    (hbl : bl ≤ 1) (hsb : sb ≤ 1) (hnt : nt ≤ 1) (hiv : iv ≤ 1) :
    ∃ qd, wrap_information_object_m_bo_na_1 (WMsg.bo bsi bl sb nt iv) =
        PyRes.ok (bsi.take 4 ++ List.replicate (4 - bsi.length) 0 ++ [qd]) ∧
      (bsi.take 4 ++ List.replicate (4 - bsi.length) 0 ++ [qd]).length = 5 ∧
      (qd % 2 = 1 ↔ 4 < bsi.length) := by
  refine ⟨(if bsi.length > 4 then 1 else 0) + 16 * bl + 32 * sb + 64 * nt + 128 * iv,
    ?_, ?_, ?_⟩
  · by_cases h4 : bsi.length > 4
    · simp only [wrap_information_object_m_bo_na_1, wrap_quality_descriptor, if_pos h4]
      rw [if_neg (by omega), if_neg (by omega), if_neg (by omega), if_neg (by omega),
        if_neg (by omega)]
    · simp only [wrap_information_object_m_bo_na_1, wrap_quality_descriptor, if_neg h4]
      rw [if_neg (by omega), if_neg (by omega), if_neg (by omega), if_neg (by omega),
        if_neg (by omega)]
  · simp only [List.length_append, List.length_take, List.length_replicate,
      List.length_cons, List.length_nil]
    omega
  · by_cases h4 : 4 < bsi.length
    · simp only [if_pos h4]
      constructor
      · intro _; exact h4
      · intro _; omega
    · simp only [if_neg h4]
      constructor
      · intro hq; exact absurd hq (by omega)
      · intro hq; exact absurd hq h4

/-- C4 witness: a 5-byte input is truncated to its first 4 bytes and the
overflow bit is set. -/
theorem m_bo_na_1_five_bytes_witness :
    ∃ qd, wrap_information_object_m_bo_na_1 (WMsg.bo [1, 2, 3, 4, 5] 0 0 0 0) =
        PyRes.ok (([1, 2, 3, 4, 5] : List Nat).take 4 ++
          List.replicate (4 - ([1, 2, 3, 4, 5] : List Nat).length) 0 ++ [qd]) ∧
      (([1, 2, 3, 4, 5] : List Nat).take 4 ++
        List.replicate (4 - ([1, 2, 3, 4, 5] : List Nat).length) 0 ++ [qd]).length = 5 ∧
      (qd % 2 = 1 ↔ 4 < ([1, 2, 3, 4, 5] : List Nat).length) :=
  m_bo_na_1_five_bytes [1, 2, 3, 4, 5] 0 0 0 0 (by decide) (by decide) (by decide) (by decide)

/-- C5 counterexample: the first byte 5 has low two bits `01`, yet
`unwrap_frame` rejects the frame instead of returning an S-frame. -/
theorem sframe_lowbits_not_sufficient :
    5 % 4 = 1 ∧
    unwrap_frame 5 0 0 0 = PyRes.err "ERROR: Frame type could not be determined." := by
  decide

/-- C5 amended: only a first byte equal to exactly `0x01` decodes as an
S-frame (any other byte with low bits `01` is rejected); in that case
`rsn = (b3 << 7) | (b2 >> 1)` as claimed. -/
theorem sframe_decode_b0_eq_one (b1 b2 b3 : Nat) :
    unwrap_frame 1 b1 b2 b3 = PyRes.ok (Frame.sframe (b3 * 128 + b2 / 2)) := by
  rfl

/-- C6: `unwrap_apdu` rejects every call with declared length below 10 with
the length error, and whenever it succeeds with a decoded object list, that
list is exactly the one obtained by parsing the information-objects region
declared as `length - 10` bytes starting right after the 4-byte APCI and
6-byte ASDU header (offset 10). -/
theorem unwrap_apdu_length_ten :
    (∀ (apdu : List Nat) (length : Nat), length < 10 →
      unwrap_apdu apdu length =
        PyRes.err "ERROR: The length has to be an integer bigger than 9(excluding header).") ∧
    (∀ (apdu : List Nat) (length : Nat) (info : ApduInfo) (objs : List IOElem),
      unwrap_apdu apdu length = PyRes.ok info → info.iobjs = IOSlot.objs objs →
      unwrap_information_objects (byteD apdu 4) info.sq info.num apdu (length - 10) 10 =
        PyRes.ok objs) := by
  constructor
  · intro apdu length h
    unfold unwrap_apdu
    rw [if_pos h]
  · intro apdu length info objs h hio
    unfold unwrap_apdu at h
    by_cases hlen : length < 10
    · rw [if_pos hlen] at h
      exact PyRes.noConfusion h
    rw [if_neg hlen] at h
    by_cases h4 : 4 ≤ apdu.length
    case neg => rw [if_neg h4] at h; exact PyRes.noConfusion h
    rw [if_pos h4] at h
    cases hfr : unwrap_frame (byteD apdu 0) (byteD apdu 1) (byteD apdu 2) (byteD apdu 3) with
    | err e => rw [hfr] at h; exact PyRes.noConfusion h
    | exn => rw [hfr] at h; exact PyRes.noConfusion h
    | ok frame =>
    simp only [hfr] at h
    by_cases h5 : 5 ≤ apdu.length
    case neg => rw [if_neg h5] at h; exact PyRes.noConfusion h
    rw [if_pos h5] at h
    cases hti : unwrap_type_identification (byteD apdu 4) with
    | err e => rw [hti] at h; exact PyRes.noConfusion h
    | exn => rw [hti] at h; exact PyRes.noConfusion h
    | ok asdu_type =>
    simp only [hti] at h
    by_cases h6 : 6 ≤ apdu.length
    case neg => rw [if_neg h6] at h; exact PyRes.noConfusion h
    rw [if_pos h6] at h
    by_cases h7 : 7 ≤ apdu.length
    case neg => rw [if_neg h7] at h; exact PyRes.noConfusion h
    rw [if_pos h7] at h
    cases hcot : unwrap_cause_of_transmission (byteD apdu 6) with
    | err e => rw [hcot] at h; exact PyRes.noConfusion h
    | exn => rw [hcot] at h; exact PyRes.noConfusion h
    | ok cot =>
    simp only [hcot] at h
    by_cases h8 : 8 ≤ apdu.length
    case neg => rw [if_neg h8] at h; exact PyRes.noConfusion h
    rw [if_pos h8] at h
    by_cases h10 : 10 ≤ apdu.length
    case neg => rw [if_neg h10] at h; exact PyRes.noConfusion h
    rw [if_pos h10] at h
    by_cases hvz : (unwrap_variable_structure_qualifier (byteD apdu 5)).2 = 0
    · rw [if_pos hvz] at h
      by_cases hl10 : apdu.length ≠ 10
      · rw [if_pos hl10] at h
        exact PyRes.noConfusion h
      · rw [if_neg hl10] at h
        injection h with h'
        subst h'
        exact absurd hio (by simp)
    · rw [if_neg hvz] at h
      cases hobjs : unwrap_information_objects (byteD apdu 4)
          (unwrap_variable_structure_qualifier (byteD apdu 5)).1
          (unwrap_variable_structure_qualifier (byteD apdu 5)).2
          apdu (length - 10) 10 with
      | err e => rw [hobjs] at h; exact PyRes.noConfusion h
      | exn => rw [hobjs] at h; exact PyRes.noConfusion h
      | ok l =>
        simp only [hobjs] at h
        injection h with h'
        subst h'
        have hio' : IOSlot.objs l = IOSlot.objs objs := hio
        injection hio' with h''
        subst h''
        exact hobjs

/-- C6 witness: the 9-length call is rejected, and on the 26-byte test APDU
`02 00 02 00 07 02 01 00 01 00 00 00 00 Test 00 01 00 00 Test 00` the
decoded objects equal the parse of the 16-byte region at offset 10. -/
theorem unwrap_apdu_length_ten_witness :
    unwrap_apdu [] 9 =
      PyRes.err "ERROR: The length has to be an integer bigger than 9(excluding header)." ∧
    unwrap_information_objects
      (byteD [2, 0, 2, 0, 7, 2, 1, 0, 1, 0, 0, 0, 0, 84, 101, 115, 116, 0,
        1, 0, 0, 84, 101, 115, 116, 0] 4)
      (ApduInfo.mk (Frame.iframe 1 1) "M_BO_NA_1" 0 2 ("periodic", 0, 0) 0 1
        (IOSlot.objs [IOElem.bo 0 [84, 101, 115, 116] (0, 0, 0, 0, 0),
          IOElem.bo 1 [84, 101, 115, 116] (0, 0, 0, 0, 0)])).sq
      (ApduInfo.mk (Frame.iframe 1 1) "M_BO_NA_1" 0 2 ("periodic", 0, 0) 0 1
        (IOSlot.objs [IOElem.bo 0 [84, 101, 115, 116] (0, 0, 0, 0, 0),
          IOElem.bo 1 [84, 101, 115, 116] (0, 0, 0, 0, 0)])).num
      [2, 0, 2, 0, 7, 2, 1, 0, 1, 0, 0, 0, 0, 84, 101, 115, 116, 0,
        1, 0, 0, 84, 101, 115, 116, 0] (26 - 10) 10 =
      PyRes.ok [IOElem.bo 0 [84, 101, 115, 116] (0, 0, 0, 0, 0),
        IOElem.bo 1 [84, 101, 115, 116] (0, 0, 0, 0, 0)] :=
  ⟨unwrap_apdu_length_ten.1 [] 9 (by decide),
    unwrap_apdu_length_ten.2
      [2, 0, 2, 0, 7, 2, 1, 0, 1, 0, 0, 0, 0, 84, 101, 115, 116, 0,
        1, 0, 0, 84, 101, 115, 116, 0] 26
      (ApduInfo.mk (Frame.iframe 1 1) "M_BO_NA_1" 0 2 ("periodic", 0, 0) 0 1
        (IOSlot.objs [IOElem.bo 0 [84, 101, 115, 116] (0, 0, 0, 0, 0),
          IOElem.bo 1 [84, 101, 115, 116] (0, 0, 0, 0, 0)]))
      [IOElem.bo 0 [84, 101, 115, 116] (0, 0, 0, 0, 0),
        IOElem.bo 1 [84, 101, 115, 116] (0, 0, 0, 0, 0)]
      (by decide) (by decide)⟩

/-- C7: for type `C_SC_NA_1` with `sq = 0` (given a buffer holding the 4
bytes at the offset), `unwrap_information_objects` succeeds exactly when
`num_elements = 1` and the declared region length is exactly 4; on success
it returns the little-endian 3-byte IOA together with the state bit
(bit 0 of the SCO byte) and the (qualifier, S/E) pair (bits 2..6 and
bit 7); in every other case it returns an error string. -/
theorem unwrap_c_sc_na_1_characterization (asdu : List Nat) (n length offset : Nat)
    (hb : offset + 4 ≤ asdu.length) :
    (n = 1 → length = 4 →
      unwrap_information_objects C_SC_NA_1 0 n asdu length offset =
        PyRes.ok [IOElem.sc
          (byteD asdu offset + byteD asdu (offset + 1) * 256 + byteD asdu (offset + 2) * 65536)
          (byteD asdu (offset + 3) % 2,
            byteD asdu (offset + 3) / 4 % 32,
            byteD asdu (offset + 3) / 128 % 2)]) ∧
    (¬(n = 1 ∧ length = 4) →
      ∃ e, unwrap_information_objects C_SC_NA_1 0 n asdu length offset = PyRes.err e) := by
  constructor
  · intro h1 h2
    subst h1
    subst h2
    unfold unwrap_information_objects
    rw [if_neg (by omega), if_neg (by omega), if_neg (by omega), if_neg (by decide),
      if_neg (by decide), if_pos rfl, if_neg (by omega), if_neg (by omega),
      if_pos (by omega), if_pos (by omega)]
    have hsc : unwrap_single_command (byteD asdu (offset + 3)) =
        (byteD asdu (offset + 3) % 2, byteD asdu (offset + 3) / 4 % 32,
          byteD asdu (offset + 3) / 128 % 2) := by
      unfold unwrap_single_command unwrap_qualifier_of_command
      simp only [Prod.mk.injEq]
      refine ⟨?_, ?_, ?_⟩ <;> first | trivial | omega
    rw [hsc]
    rfl
  · intro hne
    by_cases hn : n = 1
    · subst hn
      refine ⟨"ERROR: The expected ASDU length does not equal the real length.", ?_⟩
      unfold unwrap_information_objects
      rw [if_neg (by omega), if_neg (by omega), if_neg (by omega), if_neg (by decide),
        if_neg (by decide), if_pos rfl, if_neg (by omega), if_pos (by omega)]
    · by_cases hn0 : n = 0
      · subst hn0
        refine ⟨"ERROR: The ASDU length has to be an integer bigger than 0.", ?_⟩
        unfold unwrap_information_objects
        rw [if_neg (by omega), if_pos (by omega)]
      · refine ⟨"ERROR: C_SC_NA_1 expects only one information object.", ?_⟩
        unfold unwrap_information_objects
        rw [if_neg (by omega), if_neg (by omega), if_neg (by omega), if_neg (by decide),
          if_neg (by decide), if_pos rfl, if_pos (by omega)]

/-- C7 witness: the region `01 00 01 FC` decodes as IOA 65537 with state 0,
qualifier 31 and S/E 1; with `num_elements = 2` the same region is
rejected. -/
theorem unwrap_c_sc_na_1_characterization_witness :
    unwrap_information_objects C_SC_NA_1 0 1 [1, 0, 1, 252] 4 0 =
      PyRes.ok [IOElem.sc 65537 (0, 31, 1)] ∧
    ∃ e, unwrap_information_objects C_SC_NA_1 0 2 [1, 0, 1, 252] 4 0 = PyRes.err e :=
  ⟨((unwrap_c_sc_na_1_characterization [1, 0, 1, 252] 1 4 0 (by decide)).1 rfl rfl).trans
      (by decide),
    (unwrap_c_sc_na_1_characterization [1, 0, 1, 252] 2 4 0 (by decide)).2 (by decide)⟩

/-- C9: a stored counter of 16777215 succeeds, emitting `FF FF FF` (and
stepping to 16777216), while every counter outside `[0, 16777215]` — in
particular 16777216 — fails with the range error and keeps its value. -/
theorem ioa_boundary :
    wrap_information_object_address 16777215 = (PyRes.ok [255, 255, 255], 16777216) ∧
    ∀ a : Int, (a < 0 ∨ 16777215 < a) →
      wrap_information_object_address a =
        (PyRes.err "ERROR: Information object address has to be an integer between 0 and 16777215.",
          a) := by
  constructor
  · decide
  · intro a ha
    unfold wrap_information_object_address
    rw [if_pos (by omega)]

/-- C9 witness: the out-of-range side at 16777216 and at -1. -/
theorem ioa_boundary_witness :
    wrap_information_object_address 16777216 =
      (PyRes.err "ERROR: Information object address has to be an integer between 0 and 16777215.",
        16777216) ∧
    wrap_information_object_address (-1) =
      (PyRes.err "ERROR: Information object address has to be an integer between 0 and 16777215.",
        -1) :=
  ⟨ioa_boundary.2 16777216 (by decide), ioa_boundary.2 (-1) (by decide)⟩

/-- Helper: a successful address emission yields the 3-byte little-endian
encoding of the counter and steps the counter by one. -/
lemma wrap_information_object_address_ok (a : Int) (addr : List Nat) (a' : Int)
    (h : wrap_information_object_address a = (PyRes.ok addr, a')) :
    addr = ioa3 a ∧ a' = a + 1 := by
  unfold wrap_information_object_address at h
  split at h
  · simp at h
  · simp [Prod.ext_iff] at h
    exact ⟨h.1.symm, h.2.symm⟩

/-- Helper: a successful run of the `SQ = 0` emission loop produces, in input
order, one `IOA || payload` block per element with consecutive addresses,
and leaves the counter advanced by the number of elements. -/
lemma wrap_io_loop_sq0_ok (f : WMsg → PyRes (List Nat)) :
    ∀ (msgs : List WMsg) (a : Int) (out : List Nat) (a' : Int),
      wrap_io_loop_sq0 f msgs a = (PyRes.ok out, a') →
      a' = a + msgs.length ∧
      ∃ pls : List (List Nat),
        List.Forall₂ (fun m pl => f m = PyRes.ok pl) msgs pls ∧
        out = ((List.range msgs.length).map
          fun (i : Nat) => ioa3 (a + (i : Int)) ++ pls.getD i []).flatten := by
  intro msgs
  induction msgs with
  | nil =>
    intro a out a' h
    unfold wrap_io_loop_sq0 at h
    simp [Prod.ext_iff] at h
    refine ⟨by simp [← h.2], [], List.Forall₂.nil, by simpa using h.1⟩
  | cons m ms ih =>
    intro a out a' h
    unfold wrap_io_loop_sq0 at h
    split at h
    · rename_i addr a1 haddr
      split at h
      · rename_i payload hpay
        split at h
        · rename_i rest a2 hrest
          simp only [Prod.mk.injEq, PyRes.ok.injEq] at h
          obtain ⟨rfl, rfl⟩ := h
          obtain ⟨haddr_eq, ha1⟩ := wrap_information_object_address_ok a addr a1 haddr
          subst haddr_eq
          subst ha1
          obtain ⟨ha2, pls, hfa, hout⟩ := ih (a + 1) rest a2 hrest
          subst hout
          refine ⟨by simp only [List.length_cons]; push_cast at ha2 ⊢; omega, payload :: pls,
            List.Forall₂.cons hpay hfa, ?_⟩
          rw [List.length_cons, List.range_succ_eq_map, List.map_cons, List.map_map,
            List.flatten_cons]
          have h0 : ioa3 (2 * 0 + (0 : Int)) = ioa3 0 := rfl
          have h1 :
              List.map ((fun (i : Nat) => ioa3 (a + (i : Int)) ++
                  (payload :: pls).getD i []) ∘ Nat.succ) (List.range ms.length) =
              List.map (fun (i : Nat) => ioa3 (a + 1 + (i : Int)) ++ pls.getD i [])
                (List.range ms.length) := by
            refine List.map_congr_left fun i _ => ?_
            simp only [Function.comp_def, List.getD_cons_succ, Nat.succ_eq_add_one]
            have hc : a + ((i + 1 : Nat) : Int) = a + 1 + (i : Int) := by push_cast; ring
            rw [hc]
          rw [h1]
          simp [List.append_assoc]
        · simp at h
        · simp at h
      · simp at h
      · simp at h
    · simp at h
    · simp at h

/-- C8: a successful `sq = 0` encode of `n` elements of type `M_BO_NA_1` or
`M_ME_NC_1` starting at counter `a` (with the whole address range in
bounds) produces the concatenation, in input order, of `n` blocks, the
`i`-th being the 3-byte little-endian encoding of `a + i` followed by the
payload of the `i`-th element, and leaves the counter at `a + n`. -/
theorem wrap_io_sq0_blocks (type_id vsq : Nat) (msgs : List WMsg) (a : Int)
    (out : List Nat) (a' : Int)
    (htid : type_id = M_BO_NA_1 ∨ type_id = M_ME_NC_1)
    (hsq : vsq / 128 % 2 = 0)
    (hnum : vsq % 128 = msgs.length)
    (hlo : 0 ≤ a) (hhi : a + msgs.length ≤ 16777216)
    (hok : wrap_information_object type_id vsq msgs a = (PyRes.ok out, a')) :
    a' = a + msgs.length ∧
    ∃ pls : List (List Nat),
      List.Forall₂
        (fun m pl =>
          (if type_id = M_BO_NA_1 then wrap_information_object_m_bo_na_1 m
            else wrap_information_object_m_me_nc_1 m) = PyRes.ok pl) msgs pls ∧
      out = ((List.range msgs.length).map
        fun (i : Nat) => ioa3 (a + (i : Int)) ++ pls.getD i []).flatten := by
  unfold wrap_information_object at hok
  by_cases h128 : msgs.length > 128
  · rw [if_pos h128] at hok
    exact PyRes.noConfusion (congrArg Prod.fst hok)
  · rw [if_neg h128] at hok
    by_cases hz : vsq % 128 = 0
    · rw [if_pos hz] at hok
      have hmsgs : msgs = [] := List.length_eq_zero.mp (by omega)
      subst hmsgs
      simp only [Prod.mk.injEq, PyRes.ok.injEq] at hok
      obtain ⟨rfl, rfl⟩ := hok
      exact ⟨by simp, [], List.Forall₂.nil, by simp⟩
    · rw [if_neg hz, if_neg (by omega), if_neg (by omega), if_neg (by omega)] at hok
      rcases htid with rfl | rfl
      · rw [if_pos rfl] at hok
        obtain ⟨h1, pls, hfa, hout⟩ :=
          wrap_io_loop_sq0_ok wrap_information_object_m_bo_na_1 msgs a out a' hok
        exact ⟨h1, pls, hfa.imp (fun m pl hm => by rw [if_pos rfl]; exact hm), hout⟩
      · rw [if_neg (by decide), if_pos rfl] at hok
        obtain ⟨h1, pls, hfa, hout⟩ :=
          wrap_io_loop_sq0_ok wrap_information_object_m_me_nc_1 msgs a out a' hok
        exact ⟨h1, pls, hfa.imp (fun m pl hm => by rw [if_neg (by decide)]; exact hm), hout⟩

/-- C8 witness: two `M_BO_NA_1` objects starting at counter 2 (the test
vector `02 00 00 Test 00 03 00 00 Test 00`). -/
theorem wrap_io_sq0_blocks_witness :
    (4 : Int) = 2 + ([WMsg.bo [84, 101, 115, 116] 0 0 0 0,
        WMsg.bo [84, 101, 115, 116] 0 0 0 0] : List WMsg).length ∧
    ∃ pls : List (List Nat),
      List.Forall₂
        (fun m pl =>
          (if M_BO_NA_1 = M_BO_NA_1 then wrap_information_object_m_bo_na_1 m
            else wrap_information_object_m_me_nc_1 m) = PyRes.ok pl)
        [WMsg.bo [84, 101, 115, 116] 0 0 0 0, WMsg.bo [84, 101, 115, 116] 0 0 0 0] pls ∧
      [2, 0, 0, 84, 101, 115, 116, 0, 3, 0, 0, 84, 101, 115, 116, 0] =
        ((List.range ([WMsg.bo [84, 101, 115, 116] 0 0 0 0,
            WMsg.bo [84, 101, 115, 116] 0 0 0 0] : List WMsg).length).map
          fun (i : Nat) => ioa3 (2 + (i : Int)) ++ pls.getD i []).flatten :=
  wrap_io_sq0_blocks M_BO_NA_1 2
    [WMsg.bo [84, 101, 115, 116] 0 0 0 0, WMsg.bo [84, 101, 115, 116] 0 0 0 0] 2
    [2, 0, 0, 84, 101, 115, 116, 0, 3, 0, 0, 84, 101, 115, 116, 0] 4
    (Or.inl rfl) (by decide) (by decide) (by decide) (by decide) (by decide)

/-- C10: `wrap_information_object_address` is atomic in the counter state —
on an error the stored counter is unchanged, and on success it equals the
previous value plus exactly 1. -/
theorem ioa_atomicity (a : Int) :
    (∀ e a', wrap_information_object_address a = (PyRes.err e, a') → a' = a) ∧
    (∀ bs a', wrap_information_object_address a = (PyRes.ok bs, a') → a' = a + 1) := by
  constructor
  · intro e a' h
    unfold wrap_information_object_address at h
    split at h
    · exact (Prod.mk.injEq _ _ _ _ ▸ h).2.symm
    · cases h
  · intro bs a' h
    unfold wrap_information_object_address at h
    split at h
    · cases h
    · exact (Prod.mk.injEq _ _ _ _ ▸ h).2.symm

/-- C10 witness: an error leaves -1 stored; a success steps 5 to 6. -/
theorem ioa_atomicity_witness : (-1 : Int) = -1 ∧ (6 : Int) = 5 + 1 :=
  ⟨(ioa_atomicity (-1)).1
      "ERROR: Information object address has to be an integer between 0 and 16777215."
      (-1) (by decide),
    (ioa_atomicity 5).2 [5, 0, 0] 6 (by decide)⟩

end IEC104
